import Mathlib

/-!
Verification of the ST7701 LCD panel driver (`src/esp_lcd_st7701.c`).

The driver is a thin shim over a generic MIPI DPI panel: a constructor
`esp_lcd_new_panel_st7701` resolves configuration into shadow register
values, and five operation overrides (`init`, `del`, `reset`, `mirror`,
`invert_color`) issue controller commands over the panel-IO transport.

Embedding conventions:
- `esp_err_t` is a `Nat` carrying the ESP-IDF error-code values.
- Machine bytes (`uint8_t`) are `Nat`; the C bitwise operations are
  translated with explicit masks where truncation matters.
- Pointers that only matter for null checks become `Bool` flags.
- Every external call (transport transmission, GPIO call, delay, delegate
  call, deallocation) is recorded as an `Event` in an output trace, and
  the result an external call would return is passed in as a parameter
  (a single code, or a map from call index to code for the init loop).
-/

namespace ST7701

/-- Success code `ESP_OK` of the ESP-IDF error type. -/
def ESP_OK : Nat := 0

/-- Code `ESP_ERR_NO_MEM` of the ESP-IDF error type. -/
def ESP_ERR_NO_MEM : Nat := 0x101

/-- Code `ESP_ERR_INVALID_ARG` of the ESP-IDF error type. -/
def ESP_ERR_INVALID_ARG : Nat := 0x102

/-- Code `ESP_ERR_INVALID_STATE` of the ESP-IDF error type. -/
def ESP_ERR_INVALID_STATE : Nat := 0x103

/-- Code `ESP_ERR_NOT_SUPPORTED` of the ESP-IDF error type. -/
def ESP_ERR_NOT_SUPPORTED : Nat := 0x106

/-- Command `LCD_CMD_SWRESET` (software reset) from the panel-commands header. -/
def LCD_CMD_SWRESET : Nat := 0x01

/-- Command `LCD_CMD_SLPOUT` (exit sleep mode) from the panel-commands header. -/
def LCD_CMD_SLPOUT : Nat := 0x11

/-- Command `LCD_CMD_NORON` (normal display mode on) from the panel-commands header. -/
def LCD_CMD_NORON : Nat := 0x13

/-- Command `LCD_CMD_INVOFF` (display inversion off) from the panel-commands header. -/
def LCD_CMD_INVOFF : Nat := 0x20

/-- Command `LCD_CMD_INVON` (display inversion on) from the panel-commands header. -/
def LCD_CMD_INVON : Nat := 0x21

/-- Command `LCD_CMD_DISPON` (display on) from the panel-commands header. -/
def LCD_CMD_DISPON : Nat := 0x29

/-- Command `LCD_CMD_MADCTL` (memory access control) from the panel-commands header. -/
def LCD_CMD_MADCTL : Nat := 0x36

/-- Enum value `LCD_RGB_ELEMENT_ORDER_RGB`. -/
def LCD_RGB_ELEMENT_ORDER_RGB : Nat := 0

/-- Enum value `LCD_RGB_ELEMENT_ORDER_BGR`. -/
def LCD_RGB_ELEMENT_ORDER_BGR : Nat := 1

/-- Driver constant `ST7701_CMD_BGR_BIT` (`1ULL << 3`). -/
def ST7701_CMD_BGR_BIT : Nat := 1 <<< 3

/-- Driver constant `ST7701_CMD_ML_BIT` (`1ULL << 4`). -/
def ST7701_CMD_ML_BIT : Nat := 1 <<< 4

/-- Driver constant `ST7701_MDCTL_VALUE_DEFAULT` (`0x00`). -/
def ST7701_MDCTL_VALUE_DEFAULT : Nat := 0x00

/-- Structure `st7701_lcd_init_cmd_t`: one entry of an initialization
command table. `data` is the literal parameter array present in the
source; `data_bytes` is the declared number of parameter bytes the
transmission will read from it. -/
structure st7701_lcd_init_cmd_t where
  cmd : Nat
  data : List Nat
  data_bytes : Nat
  delay_ms : Nat
deriving DecidableEq

/-- Structure `st7701_panel_t`: the driver's private state. `io_bound`
models whether the `io` transport handle is non-null; the captured
original `del`/`init` function pointers are modelled by passing their
results into the operations that call them. -/
structure st7701_panel_t where
  io_bound : Bool
  reset_gpio_num : Int
  madctl_val : Nat
  colmod_val : Nat
  init_cmds : Option (List st7701_lcd_init_cmd_t)
  lane_num : Nat
  flags_reset_level : Bool
deriving DecidableEq

/-- Observable external calls made by the driver, in program order. -/
inductive Event where
  | txParam (cmd : Nat) (data : List Nat) (data_bytes : Nat)
  | delayMs (ms : Nat)
  | gpioSetLevel (pin : Int) (level : Bool)
  | gpioConfigOutput (pin : Int)
  | gpioResetPin (pin : Int)
  | delegateInit
  | delegateDel
  | freeState
deriving DecidableEq

/-- Embedding of `panel_st7701_reset` (lines 232-249). `txRes` is the
result the transport would return for the software-reset transmission
when one is attempted. Returns the error code and the event trace. -/
def panel_st7701_reset (st : st7701_panel_t) (txRes : Nat) : Nat × List Event :=
  if 0 ≤ st.reset_gpio_num then
    (ESP_OK,
     [Event.gpioSetLevel st.reset_gpio_num st.flags_reset_level,
      Event.delayMs 10,
      Event.gpioSetLevel st.reset_gpio_num (!st.flags_reset_level),
      Event.delayMs 20])
  else if st.io_bound then
    if txRes ≠ ESP_OK then (txRes, [Event.txParam LCD_CMD_SWRESET [] 0])
    else (ESP_OK, [Event.txParam LCD_CMD_SWRESET [] 0, Event.delayMs 20])
  else
    (ESP_OK, [])

/-- Update of the local `madctl_val` variable in `panel_st7701_mirror`
(lines 261-265): set the ML bit for `mirror_x`, clear it otherwise.
The clear masks to eight bits, as the C `uint8_t` assignment does. -/
def mirror_madctl_update (madctl : Nat) (mirror_x : Bool) : Nat :=
  if mirror_x then madctl ||| ST7701_CMD_ML_BIT
  else madctl &&& (255 ^^^ ST7701_CMD_ML_BIT)

/-- Embedding of `panel_st7701_mirror` (lines 251-273). `txRes` is the
transport's result for the MADCTL transmission. Returns the error code,
the state after the call, and the event trace. `mirror_y` is cast to
void by the source and so is unused here as well. -/
def panel_st7701_mirror (st : st7701_panel_t) (txRes : Nat)
    (mirror_x mirror_y : Bool) : Nat × st7701_panel_t × List Event :=
  if ¬ st.io_bound then (ESP_ERR_INVALID_STATE, st, [])
  else
    let madctl_val := mirror_madctl_update st.madctl_val mirror_x
    if txRes ≠ ESP_OK then
      (txRes, st, [Event.txParam LCD_CMD_MADCTL [madctl_val] 1])
    else
      (ESP_OK, { st with madctl_val := madctl_val },
       [Event.txParam LCD_CMD_MADCTL [madctl_val] 1])

/-- Embedding of `panel_st7701_invert_color` (lines 275-291). `txRes` is
the transport's result for the inversion-command transmission. The state
is returned unchanged: the source mutates nothing. -/
def panel_st7701_invert_color (st : st7701_panel_t) (txRes : Nat)
    (invert_color_data : Bool) : Nat × st7701_panel_t × List Event :=
  if ¬ st.io_bound then (ESP_ERR_INVALID_STATE, st, [])
  else
    let command := if invert_color_data then LCD_CMD_INVON else LCD_CMD_INVOFF
    if txRes ≠ ESP_OK then (txRes, st, [Event.txParam command [] 0])
    else (ESP_OK, st, [Event.txParam command [] 0])

/-- Embedding of `panel_st7701_del` (lines 207-220). `gpioRes` and
`delegateRes` are the results `gpio_reset_pin` and the captured original
`del` would return; the source discards both, so they are accepted and
ignored here exactly as there. -/
def panel_st7701_del (st : st7701_panel_t) (gpioRes delegateRes : Nat) :
    Nat × List Event :=
  (ESP_OK,
   (if 0 ≤ st.reset_gpio_num then [Event.gpioResetPin st.reset_gpio_num] else [])
   ++ [Event.delegateDel, Event.freeState])

/-- Array `vendor_specific_init_default` (lines 137-179), transcribed
entry by entry: command, literal parameter array, declared `data_bytes`,
delay in milliseconds. -/
def vendor_specific_init_default : List st7701_lcd_init_cmd_t :=
  [⟨0xFF, [0x77, 0x01, 0x00, 0x00, 0x00], 5, 0⟩,
   ⟨LCD_CMD_NORON, [0x00], 0, 0⟩,
   ⟨0xEF, [0x08], 1, 0⟩,
   ⟨0xFF, [0x77, 0x01, 0x00, 0x00, 0x10], 5, 0⟩,
   ⟨0xC0, [0x63, 0x00], 2, 0⟩,
   ⟨0xC1, [0x10, 0x02], 2, 0⟩,
   ⟨0xC2, [0x37, 0x08], 2, 0⟩,
   ⟨0xCC, [0x38], 1, 0⟩,
   ⟨0xB0, [0x40, 0xC9, 0x90, 0x0D, 0x0F, 0x04, 0x00, 0x07, 0x07, 0x1C, 0x04, 0x52, 0x0F, 0xDF, 0x26, 0xCF], 16, 0⟩,
   ⟨0xB1, [0x40, 0xC9, 0xCF, 0x0C, 0x90, 0x04, 0x00, 0x07, 0x08, 0x1B, 0x06, 0x55, 0x13, 0x62, 0xE7, 0xCF], 16, 0⟩,
   ⟨0xFF, [0x77, 0x01, 0x00, 0x00, 0x11], 5, 0⟩,
   ⟨0xB0, [0x5D], 1, 0⟩,
   ⟨0xB1, [0x2D], 1, 0⟩,
   ⟨0xB2, [0x07], 1, 0⟩,
   ⟨0xB3, [0x80], 1, 0⟩,
   ⟨0xB5, [0x08], 1, 0⟩,
   ⟨0xB7, [0x85], 1, 0⟩,
   ⟨0xB8, [0x20], 1, 0⟩,
   ⟨0xB9, [0x10], 1, 0⟩,
   ⟨0xC1, [0x78], 1, 0⟩,
   ⟨0xC2, [0x78], 1, 0⟩,
   ⟨0xD0, [0x88], 1, 100⟩,
   ⟨0xE0, [0x00, 0x19, 0x02], 3, 0⟩,
   ⟨0xE1, [0x05, 0xA0, 0x07, 0xA0, 0x04, 0xA0, 0x06, 0xA0, 0x00, 0x44, 0x44], 11, 0⟩,
   ⟨0xE2, [0x00, 0x00, 0x00, 0x00, 0x00, 0x00, 0x00, 0x00, 0x00, 0x00, 0x00, 0x00, 0x00], 13, 0⟩,
   ⟨0xE3, [0x00, 0x00, 0x33, 0x33], 5, 0⟩,
   ⟨0xE4, [0x44, 0x44], 2, 0⟩,
   ⟨0xE5, [0x0D, 0x31, 0xC8, 0xAF, 0x0F, 0x33, 0xC8, 0xAF, 0x09, 0x2D, 0xC8, 0xAF, 0x0B, 0x2F, 0xC8, 0xAF], 16, 0⟩,
   ⟨0xE6, [0x00, 0x00, 0x33, 0x33], 4, 0⟩,
   ⟨0xE7, [0x44, 0x44], 2, 0⟩,
   ⟨0xE8, [0x0C, 0x30, 0xC8, 0xAF, 0x0E, 0x32, 0xC8, 0xAF, 0x08, 0x2C, 0xC8, 0xAF, 0x0A, 0x2E, 0xC8, 0xAF], 16, 0⟩,
   ⟨0xEB, [0x02, 0x00, 0xE4, 0xE4, 0x44, 0x00, 0x40], 7, 0⟩,
   ⟨0xEC, [0x3C, 0x00], 2, 0⟩,
   ⟨0xED, [0xAB, 0x89, 0x76, 0x54, 0x01, 0xFF, 0xFF, 0xFF, 0xFF, 0xFF, 0xFF, 0x10, 0x45, 0x67, 0x98, 0xBA], 16, 0⟩,
   ⟨0xFF, [0x77, 0x01, 0x00, 0x00, 0x00], 5, 0⟩,
   ⟨LCD_CMD_SLPOUT, [0x00], 0, 120⟩,
   ⟨LCD_CMD_DISPON, [0x00], 0, 50⟩]

/-- Resolution of the table used by `panel_st7701_send_init_cmds`
(lines 189-195): the caller-supplied table when one was stored at
construction, the built-in default otherwise. -/
def resolved_init_cmds (st : st7701_panel_t) : List st7701_lcd_init_cmd_t :=
  match st.init_cmds with
  | some cmds => cmds
  | none => vendor_specific_init_default

/-- Loop of `panel_st7701_send_init_cmds` (lines 197-200). `tx i` is the
transport's result for the transmission of entry number `i`; `i` is the
loop counter for the entries still to process. A failed transmission
returns that error at once, skipping the entry's delay and the rest of
the table. -/
def send_init_cmds_loop (tx : Nat → Nat) :
    List st7701_lcd_init_cmd_t → Nat → Nat × List Event
  | [], _ => (ESP_OK, [])
  | c :: rest, i =>
      if tx i ≠ ESP_OK then (tx i, [Event.txParam c.cmd c.data c.data_bytes])
      else
        let r := send_init_cmds_loop tx rest (i + 1)
        (r.1, Event.txParam c.cmd c.data c.data_bytes ::
              Event.delayMs c.delay_ms :: r.2)

/-- Embedding of `panel_st7701_send_init_cmds` (lines 181-205). -/
def panel_st7701_send_init_cmds (st : st7701_panel_t) (tx : Nat → Nat) :
    Nat × List Event :=
  send_init_cmds_loop tx (resolved_init_cmds st) 0

/-- Embedding of `panel_st7701_init` (lines 222-230). `delegateRes` is
the result the captured original init function would return; the call to
it is recorded as `Event.delegateInit` and happens only when the whole
command table was sent successfully. -/
def panel_st7701_init (st : st7701_panel_t) (tx : Nat → Nat)
    (delegateRes : Nat) : Nat × List Event :=
  let r := panel_st7701_send_init_cmds st tx
  if r.1 ≠ ESP_OK then r
  else if delegateRes ≠ ESP_OK then (delegateRes, r.2 ++ [Event.delegateInit])
  else (ESP_OK, r.2 ++ [Event.delegateInit])

/-- Nullability of the pointer arguments checked by the two
`ESP_RETURN_ON_FALSE` guards of `esp_lcd_new_panel_st7701`
(lines 56-59). -/
structure CreateArgs where
  io_nonnull : Bool
  panel_dev_config_nonnull : Bool
  ret_panel_nonnull : Bool
  vendor_config_nonnull : Bool
  dpi_config_nonnull : Bool
  dsi_bus_nonnull : Bool
deriving DecidableEq

/-- Fields of `esp_lcd_panel_dev_config_t` and of the embedded
`st7701_vendor_config_t` that the constructor consumes. -/
structure panel_dev_config_t where
  reset_gpio_num : Int
  rgb_ele_order : Nat
  bits_per_pixel : Nat
  reset_active_high : Bool
  init_cmds : Option (List st7701_lcd_init_cmd_t)
  lane_num : Nat
deriving DecidableEq

/-- Results of the external calls the constructor makes: `calloc`
(success flag), `gpio_config`, and `esp_lcd_new_panel_dpi`. -/
structure CreateEnv where
  calloc_ok : Bool
  gpio_config_res : Nat
  new_panel_dpi_res : Nat
deriving DecidableEq

/-- Switch on `rgb_ele_order` (lines 73-83), acting on the current
`madctl_val`: RGB clears the BGR bit (an eight-bit mask, as the C
`uint8_t` assignment), BGR sets it, and any other value is
unsupported. -/
def rgb_ele_order_madctl (madctl : Nat) (order : Nat) : Option Nat :=
  if order = LCD_RGB_ELEMENT_ORDER_RGB then
    some (madctl &&& (255 ^^^ ST7701_CMD_BGR_BIT))
  else if order = LCD_RGB_ELEMENT_ORDER_BGR then
    some (madctl ||| ST7701_CMD_BGR_BIT)
  else none

/-- Switch on `bits_per_pixel` (lines 85-98): the COLMOD value for the
supported depths, `none` for any other. -/
def bits_per_pixel_colmod (bpp : Nat) : Option Nat :=
  if bpp = 16 then some 0x50
  else if bpp = 18 then some 0x60
  else if bpp = 24 then some 0x70
  else none

/-- Events of the GPIO-configuration step (lines 65-71): `gpio_config`
is called exactly when a reset pin is specified. -/
def create_gpio_events (cfg : panel_dev_config_t) : List Event :=
  if 0 ≤ cfg.reset_gpio_num then [Event.gpioConfigOutput cfg.reset_gpio_num]
  else []

/-- Events of the `err` label (lines 127-134): reset the pin's GPIO
configuration when a reset pin was specified, then free the state. -/
def create_rollback_events (cfg : panel_dev_config_t) : List Event :=
  (if 0 ≤ cfg.reset_gpio_num then [Event.gpioResetPin cfg.reset_gpio_num]
   else [])
  ++ [Event.freeState]

/-- Embedding of `esp_lcd_new_panel_st7701` (lines 51-135). Returns the
error code, the stored panel state on success (`none` on failure), and
the event trace. The field assignments follow the source's order: the
state is first populated (lines 100-105) with the madctl value computed
by the color-order switch, and then line 106 assigns
`ST7701_MDCTL_VALUE_DEFAULT` over it, which `st1` reproduces. -/
def esp_lcd_new_panel_st7701 (args : CreateArgs) (cfg : panel_dev_config_t)
    (env : CreateEnv) : Nat × Option st7701_panel_t × List Event :=
  if ¬ (args.io_nonnull && args.panel_dev_config_nonnull &&
        args.ret_panel_nonnull) then
    (ESP_ERR_INVALID_ARG, none, [])
  else if ¬ (args.vendor_config_nonnull && args.dpi_config_nonnull &&
             args.dsi_bus_nonnull) then
    (ESP_ERR_INVALID_ARG, none, [])
  else if ¬ env.calloc_ok then
    (ESP_ERR_NO_MEM, none, [])
  else if 0 ≤ cfg.reset_gpio_num ∧ env.gpio_config_res ≠ ESP_OK then
    (env.gpio_config_res, none,
     create_gpio_events cfg ++ create_rollback_events cfg)
  else
    match rgb_ele_order_madctl 0 cfg.rgb_ele_order with
    | none =>
        (ESP_ERR_NOT_SUPPORTED, none,
         create_gpio_events cfg ++ create_rollback_events cfg)
    | some madctl_from_order =>
      match bits_per_pixel_colmod cfg.bits_per_pixel with
      | none =>
          (ESP_ERR_NOT_SUPPORTED, none,
           create_gpio_events cfg ++ create_rollback_events cfg)
      | some colmod =>
        let st0 : st7701_panel_t :=
          { io_bound := true
            reset_gpio_num := cfg.reset_gpio_num
            madctl_val := madctl_from_order
            colmod_val := colmod
            init_cmds := cfg.init_cmds
            lane_num := cfg.lane_num
            flags_reset_level := cfg.reset_active_high }
        let st1 : st7701_panel_t :=
          { st0 with madctl_val := ST7701_MDCTL_VALUE_DEFAULT }
        if env.new_panel_dpi_res ≠ ESP_OK then
          (env.new_panel_dpi_res, none,
           create_gpio_events cfg ++ create_rollback_events cfg)
        else
          (ESP_OK, some st1, create_gpio_events cfg)

/-- Concrete panel state with a bound transport, used to instantiate the
universally quantified theorems below. -/
def panel_with_transport : st7701_panel_t :=
  { io_bound := true, reset_gpio_num := -1, madctl_val := 0,
    colmod_val := 0x50, init_cmds := none, lane_num := 2,
    flags_reset_level := false }

/-- Concrete panel state without a bound transport. -/
def panel_without_transport : st7701_panel_t :=
  { io_bound := false, reset_gpio_num := -1, madctl_val := 0,
    colmod_val := 0x50, init_cmds := none, lane_num := 2,
    flags_reset_level := false }

/-- Concrete panel state with a configured reset pin. -/
def panel_with_reset_pin : st7701_panel_t :=
  { io_bound := true, reset_gpio_num := 4, madctl_val := 0,
    colmod_val := 0x50, init_cmds := none, lane_num := 2,
    flags_reset_level := true }

/-- Claim C9: the delete override always returns success; it resets the
GPIO configuration exactly when a reset pin was configured, calls the
captured original delete, frees the state, and surfaces no failure of
`gpio_reset_pin` or of the delegate (their results are ignored for every
possible value). -/
theorem del_always_ok (st : st7701_panel_t) (gpioRes delegateRes : Nat) :
    panel_st7701_del st gpioRes delegateRes =
      (ESP_OK,
       (if 0 ≤ st.reset_gpio_num then [Event.gpioResetPin st.reset_gpio_num]
        else [])
       ++ [Event.delegateDel, Event.freeState]) := rfl

/-- Claim C10: invert-color fails with `ESP_ERR_INVALID_STATE` when no
transport is bound; otherwise it transmits exactly one zero-parameter
command, `LCD_CMD_INVON` for `true` and `LCD_CMD_INVOFF` for `false`,
leaves the state unchanged, and fails exactly when the transmission
does. -/
theorem invert_color_commands (st : st7701_panel_t) (txRes : Nat)
    (invert : Bool) :
    (st.io_bound = false →
       panel_st7701_invert_color st txRes invert =
         (ESP_ERR_INVALID_STATE, st, []))
  ∧ (st.io_bound = true →
       panel_st7701_invert_color st txRes invert =
         (txRes, st,
          [Event.txParam (if invert then LCD_CMD_INVON else LCD_CMD_INVOFF)
             [] 0])) := by
  constructor
  · intro h
    simp [panel_st7701_invert_color, h]
  · intro h
    by_cases htx : txRes = ESP_OK
    · simp [panel_st7701_invert_color, h, htx]
    · simp [panel_st7701_invert_color, h, htx]

/-- Witness for `invert_color_commands` at concrete states. -/
theorem invert_color_commands_witness :
    panel_st7701_invert_color panel_without_transport 0 true =
      (ESP_ERR_INVALID_STATE, panel_without_transport, []) ∧
    panel_st7701_invert_color panel_with_transport 0 true =
      (0, panel_with_transport, [Event.txParam LCD_CMD_INVON [] 0]) :=
  ⟨(invert_color_commands panel_without_transport 0 true).1 rfl,
   (invert_color_commands panel_with_transport 0 true).2 rfl⟩

/-- Claim C4: reset with a configured pin performs the hardware sequence
(active level, 10 ms, inactive level, 20 ms) with no transmission and
returns success; with no pin but a bound transport it transmits exactly
one zero-parameter software-reset command and returns that
transmission's result; with neither it is a no-op success. -/
theorem reset_paths (st : st7701_panel_t) (txRes : Nat) :
    (0 ≤ st.reset_gpio_num →
       panel_st7701_reset st txRes =
         (ESP_OK,
          [Event.gpioSetLevel st.reset_gpio_num st.flags_reset_level,
           Event.delayMs 10,
           Event.gpioSetLevel st.reset_gpio_num (!st.flags_reset_level),
           Event.delayMs 20]))
  ∧ (st.reset_gpio_num < 0 → st.io_bound = true →
       panel_st7701_reset st txRes =
         (txRes,
          if txRes = ESP_OK
          then [Event.txParam LCD_CMD_SWRESET [] 0, Event.delayMs 20]
          else [Event.txParam LCD_CMD_SWRESET [] 0]))
  ∧ (st.reset_gpio_num < 0 → st.io_bound = false →
       panel_st7701_reset st txRes = (ESP_OK, [])) := by
  refine ⟨?_, ?_, ?_⟩
  · intro h
    simp [panel_st7701_reset, h]
  · intro h hio
    by_cases htx : txRes = ESP_OK
    · simp [panel_st7701_reset, not_le.mpr h, hio, htx]
    · simp [panel_st7701_reset, not_le.mpr h, hio, htx]
  · intro h hio
    simp [panel_st7701_reset, not_le.mpr h, hio]

/-- Witness for `reset_paths` at concrete states: the hardware path, the
software path, and the no-op path. -/
theorem reset_paths_witness :
    panel_st7701_reset panel_with_reset_pin 0 =
      (ESP_OK,
       [Event.gpioSetLevel 4 true, Event.delayMs 10,
        Event.gpioSetLevel 4 false, Event.delayMs 20]) ∧
    panel_st7701_reset panel_with_transport 0 =
      (0, [Event.txParam LCD_CMD_SWRESET [] 0, Event.delayMs 20]) ∧
    panel_st7701_reset panel_without_transport 7 = (ESP_OK, []) :=
  ⟨(reset_paths panel_with_reset_pin 0).1 (by decide),
   by simpa using (reset_paths panel_with_transport 0).2.1 (by decide) rfl,
   (reset_paths panel_without_transport 7).2.2 (by decide) rfl⟩

/-- Claim C3: mirror fails with `ESP_ERR_INVALID_STATE` when no
transport is bound; `mirror_y` never affects the result or the state;
a failed MADCTL transmission leaves the stored `madctl_val` untouched
(the error is propagated); a successful one persists exactly the
transmitted value. -/
theorem mirror_error_handling (st : st7701_panel_t) (txRes : Nat)
    (mx my my2 : Bool) :
    (st.io_bound = false →
       panel_st7701_mirror st txRes mx my = (ESP_ERR_INVALID_STATE, st, []))
  ∧ panel_st7701_mirror st txRes mx my = panel_st7701_mirror st txRes mx my2
  ∧ (txRes ≠ ESP_OK → (panel_st7701_mirror st txRes mx my).2.1 = st)
  ∧ (st.io_bound = true → txRes ≠ ESP_OK →
       panel_st7701_mirror st txRes mx my =
         (txRes, st,
          [Event.txParam LCD_CMD_MADCTL
             [mirror_madctl_update st.madctl_val mx] 1]))
  ∧ (st.io_bound = true → txRes = ESP_OK →
       panel_st7701_mirror st txRes mx my =
         (ESP_OK,
          { st with madctl_val := mirror_madctl_update st.madctl_val mx },
          [Event.txParam LCD_CMD_MADCTL
             [mirror_madctl_update st.madctl_val mx] 1])) := by
  refine ⟨?_, rfl, ?_, ?_, ?_⟩
  · intro h
    simp [panel_st7701_mirror, h]
  · intro htx
    by_cases hio : st.io_bound
    · simp [panel_st7701_mirror, hio, htx]
    · simp [panel_st7701_mirror, hio]
  · intro hio htx
    simp [panel_st7701_mirror, hio, htx]
  · intro hio htx
    simp [panel_st7701_mirror, hio, htx]

/-- Witness for `mirror_error_handling` at concrete states: the missing
transport, the failed transmission, and the successful transmission. -/
theorem mirror_error_handling_witness :
    panel_st7701_mirror panel_without_transport 0 true false =
      (ESP_ERR_INVALID_STATE, panel_without_transport, []) ∧
    (panel_st7701_mirror panel_with_transport 0x103 true false).2.1 =
      panel_with_transport ∧
    panel_st7701_mirror panel_with_transport 0 true false =
      (ESP_OK,
       { panel_with_transport with madctl_val := 16 },
       [Event.txParam LCD_CMD_MADCTL [16] 1]) :=
  ⟨(mirror_error_handling panel_without_transport 0 true false false).1 rfl,
   (mirror_error_handling panel_with_transport 0x103 true false false).2.2.1
     (by decide),
   by simpa using
     (mirror_error_handling panel_with_transport 0 true false false).2.2.2.2
       rfl rfl⟩

/-- Argument flags for a call of the constructor with no null pointer. -/
def create_args_all_valid : CreateArgs :=
  { io_nonnull := true, panel_dev_config_nonnull := true,
    ret_panel_nonnull := true, vendor_config_nonnull := true,
    dpi_config_nonnull := true, dsi_bus_nonnull := true }

/-- Configuration requesting BGR color order at sixteen bits per pixel,
with no reset pin and no custom init table. -/
def create_cfg_bgr : panel_dev_config_t :=
  { reset_gpio_num := -1, rgb_ele_order := LCD_RGB_ELEMENT_ORDER_BGR,
    bits_per_pixel := 16, reset_active_high := false, init_cmds := none,
    lane_num := 2 }

/-- Environment in which every external call of the constructor
succeeds. -/
def create_env_all_ok : CreateEnv :=
  { calloc_ok := true, gpio_config_res := ESP_OK,
    new_panel_dpi_res := ESP_OK }

/-- Claim C1: a successful create requesting BGR stores a `madctl_val`
whose BGR bit is clear. The color-order switch (line 78) does set the
bit, but line 106 then assigns `ST7701_MDCTL_VALUE_DEFAULT` (0x00) over
it, so the stored byte is 0x00. -/
theorem create_bgr_stores_default_madctl :
    (esp_lcd_new_panel_st7701 create_args_all_valid create_cfg_bgr
       create_env_all_ok).1 = ESP_OK ∧
    ((esp_lcd_new_panel_st7701 create_args_all_valid create_cfg_bgr
        create_env_all_ok).2.1.map
       (fun st => st.madctl_val &&& ST7701_CMD_BGR_BIT)) = some 0 := by
  decide

/-- Claim C2: the built-in default table violates the per-entry bound
`data_bytes ≤ data.length`: entry 25 (command 0xE3) declares five
parameter bytes over a four-byte array, so its transmission reads one
byte past the array's end. Every other entry satisfies the bound. -/
theorem default_table_declared_bytes_overrun :
    ¬ (∀ c ∈ vendor_specific_init_default, c.data_bytes ≤ c.data.length) ∧
    (vendor_specific_init_default.get ⟨25, by decide⟩).cmd = 0xE3 ∧
    (vendor_specific_init_default.get ⟨25, by decide⟩).data_bytes = 5 ∧
    (vendor_specific_init_default.get ⟨25, by decide⟩).data.length = 4 ∧
    (∀ i : Fin vendor_specific_init_default.length, i.val ≠ 25 →
       (vendor_specific_init_default.get i).data_bytes ≤
         (vendor_specific_init_default.get i).data.length) := by
  decide

set_option maxRecDepth 8192 in
/-- Byte-level facts about `mirror_madctl_update`: repeating the same
update is idempotent, and setting then clearing the ML bit restores a
byte whose ML bit was clear. -/
theorem mirror_update_props : ∀ a < 256,
    (mirror_madctl_update (mirror_madctl_update a true) true =
       mirror_madctl_update a true) ∧
    (mirror_madctl_update (mirror_madctl_update a false) false =
       mirror_madctl_update a false) ∧
    (a &&& ST7701_CMD_ML_BIT = 0 →
       mirror_madctl_update (mirror_madctl_update a true) false = a) := by
  decide

/-- Concrete panel state whose stored madctl already has the ML (mirror)
bit set. -/
def panel_ml_bit_set : st7701_panel_t :=
  { io_bound := true, reset_gpio_num := -1, madctl_val := 16,
    colmod_val := 0x50, init_cmds := none, lane_num := 2,
    flags_reset_level := false }

/-- Claim C8 counterexample: at a panel state with a bound transport,
successful transmissions, and madctl 0x10 (ML bit already set),
mirror(true) followed by mirror(false) stores madctl 0x00, not the
original 0x10 — the round-trip half of the claim fails for this
state. -/
theorem mirror_roundtrip_counterexample :
    panel_ml_bit_set.io_bound = true ∧
    panel_ml_bit_set.madctl_val = 16 ∧
    (panel_st7701_mirror (panel_st7701_mirror panel_ml_bit_set ESP_OK
        true true).2.1 ESP_OK false true).2.1.madctl_val = 0 ∧
    (panel_st7701_mirror (panel_st7701_mirror panel_ml_bit_set ESP_OK
        true true).2.1 ESP_OK false true).2.1.madctl_val ≠
      panel_ml_bit_set.madctl_val := by
  decide

/-- Claim C8 (amended): for every panel state with a byte-valued madctl
and a bound transport, under successful transmissions a repeated mirror
call with the same argument leaves madctl at the value after the first
call; and mirror(true) followed by mirror(false) restores the original
madctl whenever its ML bit was clear beforehand, as it is after
construction. -/
theorem mirror_idempotent_roundtrip (st : st7701_panel_t) (mx : Bool)
    (hio : st.io_bound = true) (h8 : st.madctl_val < 256) :
    ((panel_st7701_mirror (panel_st7701_mirror st ESP_OK mx true).2.1
        ESP_OK mx true).2.1.madctl_val =
       (panel_st7701_mirror st ESP_OK mx true).2.1.madctl_val)
  ∧ (st.madctl_val &&& ST7701_CMD_ML_BIT = 0 →
       (panel_st7701_mirror (panel_st7701_mirror st ESP_OK true true).2.1
           ESP_OK false true).2.1.madctl_val = st.madctl_val) := by
  obtain ⟨h1, h2, h3⟩ := mirror_update_props st.madctl_val h8
  have e : ∀ (x : st7701_panel_t), x.io_bound = true → ∀ b : Bool,
      (panel_st7701_mirror x ESP_OK b true).2.1 =
        { x with madctl_val := mirror_madctl_update x.madctl_val b } := by
    intro x hx b
    simp [panel_st7701_mirror, hx]
  constructor
  · rw [e st hio mx, e _ (by simp [hio]) mx]
    cases mx
    · simpa using h2
    · simpa using h1
  · intro hml
    rw [e st hio true, e _ (by simp [hio]) false]
    simpa using h3 hml

/-- Witness for `mirror_idempotent_roundtrip` at a concrete state. -/
theorem mirror_idempotent_roundtrip_witness :
    ((panel_st7701_mirror (panel_st7701_mirror panel_with_transport ESP_OK
        true true).2.1 ESP_OK true true).2.1.madctl_val =
       (panel_st7701_mirror panel_with_transport ESP_OK true
          true).2.1.madctl_val) ∧
    ((panel_st7701_mirror (panel_st7701_mirror panel_with_transport ESP_OK
        true true).2.1 ESP_OK false true).2.1.madctl_val =
       panel_with_transport.madctl_val) :=
  ⟨(mirror_idempotent_roundtrip panel_with_transport true rfl
      (by decide)).1,
   (mirror_idempotent_roundtrip panel_with_transport true rfl
      (by decide)).2 (by decide)⟩

/-- Expected trace of sending a command table: each entry as its
transmission followed by its delay. -/
def init_cmds_trace : List st7701_lcd_init_cmd_t → List Event
  | [] => []
  | c :: rest =>
      Event.txParam c.cmd c.data c.data_bytes :: Event.delayMs c.delay_ms ::
        init_cmds_trace rest

/-- When every transmission of the table succeeds, the loop returns
success and emits exactly the table's trace. -/
theorem send_init_cmds_loop_all_ok (tx : Nat → Nat)
    (cmds : List st7701_lcd_init_cmd_t) :
    ∀ base, (∀ i, i < cmds.length → tx (base + i) = ESP_OK) →
      send_init_cmds_loop tx cmds base = (ESP_OK, init_cmds_trace cmds) := by
  induction cmds with
  | nil => intro base h; rfl
  | cons c rest ih =>
    intro base h
    have h0 : tx base = ESP_OK := by simpa using h 0 (Nat.succ_pos _)
    have hrec := ih (base + 1) (fun i hi => by
      have hx := h (i + 1) (Nat.succ_lt_succ hi)
      have he : base + (i + 1) = base + 1 + i := by omega
      rw [he] at hx
      exact hx)
    simp [send_init_cmds_loop, h0, hrec, init_cmds_trace]

/-- When the first `k` transmissions succeed and transmission `k` fails,
the loop stops at entry `k`: it emits the trace of the first `k` entries
plus the failed transmission of entry `k` (without its delay) and
returns that transmission's error. -/
theorem send_init_cmds_loop_first_fail (tx : Nat → Nat)
    (cmds : List st7701_lcd_init_cmd_t) :
    ∀ base k, (hk : k < cmds.length) → (∀ i, i < k → tx (base + i) = ESP_OK) →
      tx (base + k) ≠ ESP_OK →
      send_init_cmds_loop tx cmds base =
        (tx (base + k),
         init_cmds_trace (cmds.take k) ++
           [Event.txParam (cmds.get ⟨k, hk⟩).cmd (cmds.get ⟨k, hk⟩).data
              (cmds.get ⟨k, hk⟩).data_bytes]) := by
  induction cmds with
  | nil => intro base k hk; exact absurd hk (by simp)
  | cons c rest ih =>
    intro base k hk hok hfail
    cases k with
    | zero =>
      have hfail0 : tx base ≠ ESP_OK := by simpa using hfail
      simp [send_init_cmds_loop, hfail0, init_cmds_trace]
    | succ k' =>
      have h0 : tx base = ESP_OK := by simpa using hok 0 (Nat.succ_pos _)
      have hk' : k' < rest.length := Nat.lt_of_succ_lt_succ hk
      have hfail' : tx (base + 1 + k') ≠ ESP_OK := by
        have he : base + (k' + 1) = base + 1 + k' := by omega
        rw [he] at hfail
        exact hfail
      have hrec := ih (base + 1) k' hk' (fun i hi => by
        have hx := hok (i + 1) (Nat.succ_lt_succ hi)
        have he : base + (i + 1) = base + 1 + i := by omega
        rw [he] at hx
        exact hx) hfail'
      have he2 : base + (k' + 1) = base + 1 + k' := by omega
      rw [he2]
      simp [send_init_cmds_loop, h0, hrec, init_cmds_trace]

/-- Claim C5: for the resolved table (caller-supplied when stored,
otherwise the built-in default), init transmits the entries in order,
each as one command-plus-parameters transmission followed by that
entry's delay; when every transmission succeeds it then calls the
captured original init and returns its result; on the first failing
transmission it returns that error at once, having sent no later entry
and not called the delegate. -/
theorem init_sends_table_then_delegate (st : st7701_panel_t)
    (tx : Nat → Nat) (delegateRes : Nat) :
    ((∀ i, i < (resolved_init_cmds st).length → tx i = ESP_OK) →
       panel_st7701_init st tx delegateRes =
         (delegateRes,
          init_cmds_trace (resolved_init_cmds st) ++ [Event.delegateInit]))
  ∧ (∀ k, (hk : k < (resolved_init_cmds st).length) →
       (∀ i, i < k → tx i = ESP_OK) → tx k ≠ ESP_OK →
       panel_st7701_init st tx delegateRes =
         (tx k,
          init_cmds_trace ((resolved_init_cmds st).take k) ++
            [Event.txParam ((resolved_init_cmds st).get ⟨k, hk⟩).cmd
               ((resolved_init_cmds st).get ⟨k, hk⟩).data
               ((resolved_init_cmds st).get ⟨k, hk⟩).data_bytes])) := by
  constructor
  · intro h
    have hs := send_init_cmds_loop_all_ok tx (resolved_init_cmds st) 0
      (fun i hi => by simpa using h i hi)
    by_cases hd : delegateRes = ESP_OK
    · simp [panel_st7701_init, panel_st7701_send_init_cmds, hs, hd]
    · simp [panel_st7701_init, panel_st7701_send_init_cmds, hs, hd]
  · intro k hk hok hfail
    have hs := send_init_cmds_loop_first_fail tx (resolved_init_cmds st) 0 k
      hk (fun i hi => by simpa using hok i hi) (by simpa using hfail)
    rw [Nat.zero_add] at hs
    simp [panel_st7701_init, panel_st7701_send_init_cmds, hs, hfail]

/-- Caller-supplied two-entry command table for the init witness. -/
def custom_init_table : List st7701_lcd_init_cmd_t :=
  [⟨0xAB, [0x01, 0x02], 2, 5⟩, ⟨0xCD, [], 0, 0⟩]

/-- Concrete panel state carrying the caller-supplied table. -/
def panel_with_custom_table : st7701_panel_t :=
  { io_bound := true, reset_gpio_num := -1, madctl_val := 0,
    colmod_val := 0x50, init_cmds := some custom_init_table, lane_num := 2,
    flags_reset_level := false }

/-- Witness for `init_sends_table_then_delegate`: with a caller-supplied
table and all transmissions succeeding, init sends both entries with
their delays and then calls the delegate. -/
theorem init_sends_table_then_delegate_witness :
    panel_st7701_init panel_with_custom_table (fun _ => ESP_OK) 0 =
      (0, [Event.txParam 0xAB [0x01, 0x02] 2, Event.delayMs 5,
           Event.txParam 0xCD [] 0, Event.delayMs 0,
           Event.delegateInit]) := by
  have h := (init_sends_table_then_delegate panel_with_custom_table
    (fun _ => ESP_OK) 0).1 (fun i _ => rfl)
  simpa [resolved_init_cmds, panel_with_custom_table, custom_init_table,
    init_cmds_trace] using h

/-- Values the bits-per-pixel switch can produce. -/
theorem bits_per_pixel_colmod_mem (bpp c : Nat)
    (h : bits_per_pixel_colmod bpp = some c) :
    c = 0x50 ∨ c = 0x60 ∨ c = 0x70 := by
  unfold bits_per_pixel_colmod at h
  split_ifs at h <;> simp_all

/-- Every successful construction stores the colmod value resolved by
the bits-per-pixel switch and the post-overwrite default madctl. -/
theorem create_success_inv (args : CreateArgs) (cfg : panel_dev_config_t)
    (env : CreateEnv) (e : Nat) (st : st7701_panel_t) (evs : List Event)
    (h : esp_lcd_new_panel_st7701 args cfg env = (e, some st, evs)) :
    bits_per_pixel_colmod cfg.bits_per_pixel = some st.colmod_val ∧
    st.madctl_val = ST7701_MDCTL_VALUE_DEFAULT := by
  unfold esp_lcd_new_panel_st7701 at h
  split at h
  · simp at h
  split at h
  · simp at h
  split at h
  · simp at h
  split at h
  · simp at h
  split at h
  · simp at h
  split at h
  · simp at h
  split at h
  · simp at h
  · simp only [Prod.mk.injEq, Option.some.injEq] at h
    obtain ⟨-, hst, -⟩ := h
    subst hst
    constructor
    · assumption
    · rfl

/-- Configuration requesting an unsupported depth of seven bits per
pixel. -/
def create_cfg_bpp7 : panel_dev_config_t :=
  { reset_gpio_num := 4, rgb_ele_order := LCD_RGB_ELEMENT_ORDER_RGB,
    bits_per_pixel := 7, reset_active_high := false, init_cmds := none,
    lane_num := 2 }

/-- Claim C6: under valid arguments with allocation, GPIO configuration,
the delegate constructor succeeding, and a supported color order, create
maps bits-per-pixel 16, 18 and 24 to colmod 0x50, 0x60 and 0x70; any
other depth fails with `ESP_ERR_NOT_SUPPORTED` storing no panel; and
every successful construction (for any inputs) stores a colmod among
those three values. -/
theorem create_colmod_mapping (args : CreateArgs) (cfg : panel_dev_config_t)
    (env : CreateEnv)
    (ha1 : args.io_nonnull = true)
    (ha2 : args.panel_dev_config_nonnull = true)
    (ha3 : args.ret_panel_nonnull = true)
    (ha4 : args.vendor_config_nonnull = true)
    (ha5 : args.dpi_config_nonnull = true)
    (ha6 : args.dsi_bus_nonnull = true)
    (hcalloc : env.calloc_ok = true)
    (hgpio : env.gpio_config_res = ESP_OK)
    (hdpi : env.new_panel_dpi_res = ESP_OK)
    (horder : cfg.rgb_ele_order = LCD_RGB_ELEMENT_ORDER_RGB ∨
              cfg.rgb_ele_order = LCD_RGB_ELEMENT_ORDER_BGR) :
    (cfg.bits_per_pixel = 16 →
       (esp_lcd_new_panel_st7701 args cfg env).1 = ESP_OK ∧
       ((esp_lcd_new_panel_st7701 args cfg env).2.1.map
          st7701_panel_t.colmod_val) = some 0x50)
  ∧ (cfg.bits_per_pixel = 18 →
       (esp_lcd_new_panel_st7701 args cfg env).1 = ESP_OK ∧
       ((esp_lcd_new_panel_st7701 args cfg env).2.1.map
          st7701_panel_t.colmod_val) = some 0x60)
  ∧ (cfg.bits_per_pixel = 24 →
       (esp_lcd_new_panel_st7701 args cfg env).1 = ESP_OK ∧
       ((esp_lcd_new_panel_st7701 args cfg env).2.1.map
          st7701_panel_t.colmod_val) = some 0x70)
  ∧ (cfg.bits_per_pixel ≠ 16 → cfg.bits_per_pixel ≠ 18 →
     cfg.bits_per_pixel ≠ 24 →
       esp_lcd_new_panel_st7701 args cfg env =
         (ESP_ERR_NOT_SUPPORTED, none,
          create_gpio_events cfg ++ create_rollback_events cfg))
  ∧ (∀ e st evs, esp_lcd_new_panel_st7701 args cfg env = (e, some st, evs) →
       st.colmod_val = 0x50 ∨ st.colmod_val = 0x60 ∨ st.colmod_val = 0x70) := by
  refine ⟨?_, ?_, ?_, ?_, ?_⟩
  · intro hb
    rcases horder with ho | ho <;>
      simp [esp_lcd_new_panel_st7701, ha1, ha2, ha3, ha4, ha5, ha6, hcalloc,
        hgpio, hdpi, ho, hb, rgb_ele_order_madctl, bits_per_pixel_colmod,
        LCD_RGB_ELEMENT_ORDER_RGB, LCD_RGB_ELEMENT_ORDER_BGR]
  · intro hb
    rcases horder with ho | ho <;>
      simp [esp_lcd_new_panel_st7701, ha1, ha2, ha3, ha4, ha5, ha6, hcalloc,
        hgpio, hdpi, ho, hb, rgb_ele_order_madctl, bits_per_pixel_colmod,
        LCD_RGB_ELEMENT_ORDER_RGB, LCD_RGB_ELEMENT_ORDER_BGR]
  · intro hb
    rcases horder with ho | ho <;>
      simp [esp_lcd_new_panel_st7701, ha1, ha2, ha3, ha4, ha5, ha6, hcalloc,
        hgpio, hdpi, ho, hb, rgb_ele_order_madctl, bits_per_pixel_colmod,
        LCD_RGB_ELEMENT_ORDER_RGB, LCD_RGB_ELEMENT_ORDER_BGR]
  · intro h16 h18 h24
    rcases horder with ho | ho <;>
      simp [esp_lcd_new_panel_st7701, ha1, ha2, ha3, ha4, ha5, ha6, hcalloc,
        hgpio, hdpi, ho, h16, h18, h24, rgb_ele_order_madctl,
        bits_per_pixel_colmod, LCD_RGB_ELEMENT_ORDER_RGB,
        LCD_RGB_ELEMENT_ORDER_BGR]
  · intro e st evs h
    have hc := (create_success_inv args cfg env e st evs h).1
    exact bits_per_pixel_colmod_mem cfg.bits_per_pixel st.colmod_val hc

/-- Witness for `create_colmod_mapping`: the sixteen-bit configuration
yields colmod 0x50 and a seven-bit depth is rejected with rollback. -/
theorem create_colmod_mapping_witness :
    ((esp_lcd_new_panel_st7701 create_args_all_valid create_cfg_bgr
        create_env_all_ok).2.1.map st7701_panel_t.colmod_val) = some 0x50 ∧
    esp_lcd_new_panel_st7701 create_args_all_valid create_cfg_bpp7
        create_env_all_ok =
      (ESP_ERR_NOT_SUPPORTED, none,
       create_gpio_events create_cfg_bpp7 ++
         create_rollback_events create_cfg_bpp7) :=
  ⟨((create_colmod_mapping create_args_all_valid create_cfg_bgr
      create_env_all_ok rfl rfl rfl rfl rfl rfl rfl rfl rfl
      (Or.inr rfl)).1 rfl).2,
   (create_colmod_mapping create_args_all_valid create_cfg_bpp7
      create_env_all_ok rfl rfl rfl rfl rfl rfl rfl rfl rfl
      (Or.inl rfl)).2.2.2.1 (by decide) (by decide) (by decide)⟩

/-- Configuration requesting an unsupported color order value. -/
def create_cfg_bad_order : panel_dev_config_t :=
  { reset_gpio_num := 4, rgb_ele_order := 5, bits_per_pixel := 16,
    reset_active_high := false, init_cmds := none, lane_num := 2 }

/-- Fully supported configuration (RGB order, sixteen bits per pixel)
with a configured reset pin. -/
def create_cfg_rgb_pin : panel_dev_config_t :=
  { reset_gpio_num := 4, rgb_ele_order := LCD_RGB_ELEMENT_ORDER_RGB,
    bits_per_pixel := 16, reset_active_high := false, init_cmds := none,
    lane_num := 2 }

/-- Environment in which the delegate DPI panel constructor fails. -/
def create_env_dpi_fail : CreateEnv :=
  { calloc_ok := true, gpio_config_res := ESP_OK,
    new_panel_dpi_res := ESP_ERR_NO_MEM }

/-- Claim C7: whenever create fails after its argument checks — an
unsupported color order, an unsupported bit depth, or a failing delegate
constructor — it resets the GPIO configuration of the reset pin exactly
when one was specified, frees the just-allocated state, stores no panel,
and propagates the failure code. -/
theorem create_failure_rollback (args : CreateArgs)
    (cfg : panel_dev_config_t) (env : CreateEnv)
    (ha1 : args.io_nonnull = true)
    (ha2 : args.panel_dev_config_nonnull = true)
    (ha3 : args.ret_panel_nonnull = true)
    (ha4 : args.vendor_config_nonnull = true)
    (ha5 : args.dpi_config_nonnull = true)
    (ha6 : args.dsi_bus_nonnull = true)
    (hcalloc : env.calloc_ok = true)
    (hgpio : env.gpio_config_res = ESP_OK) :
    (cfg.rgb_ele_order ≠ LCD_RGB_ELEMENT_ORDER_RGB →
     cfg.rgb_ele_order ≠ LCD_RGB_ELEMENT_ORDER_BGR →
       esp_lcd_new_panel_st7701 args cfg env =
         (ESP_ERR_NOT_SUPPORTED, none,
          create_gpio_events cfg ++ create_rollback_events cfg))
  ∧ ((cfg.rgb_ele_order = LCD_RGB_ELEMENT_ORDER_RGB ∨
      cfg.rgb_ele_order = LCD_RGB_ELEMENT_ORDER_BGR) →
     bits_per_pixel_colmod cfg.bits_per_pixel = none →
       esp_lcd_new_panel_st7701 args cfg env =
         (ESP_ERR_NOT_SUPPORTED, none,
          create_gpio_events cfg ++ create_rollback_events cfg))
  ∧ ((cfg.rgb_ele_order = LCD_RGB_ELEMENT_ORDER_RGB ∨
      cfg.rgb_ele_order = LCD_RGB_ELEMENT_ORDER_BGR) →
     bits_per_pixel_colmod cfg.bits_per_pixel ≠ none →
     env.new_panel_dpi_res ≠ ESP_OK →
       esp_lcd_new_panel_st7701 args cfg env =
         (env.new_panel_dpi_res, none,
          create_gpio_events cfg ++ create_rollback_events cfg)) := by
  refine ⟨?_, ?_, ?_⟩
  · intro h1 h2
    simp [esp_lcd_new_panel_st7701, ha1, ha2, ha3, ha4, ha5, ha6, hcalloc,
      hgpio, rgb_ele_order_madctl, h1, h2]
  · intro horder hb
    rcases horder with ho | ho <;>
      simp [esp_lcd_new_panel_st7701, ha1, ha2, ha3, ha4, ha5, ha6, hcalloc,
        hgpio, rgb_ele_order_madctl, ho, hb, LCD_RGB_ELEMENT_ORDER_RGB,
        LCD_RGB_ELEMENT_ORDER_BGR]
  · intro horder hb hdpi
    obtain ⟨c, hc⟩ := Option.ne_none_iff_exists.mp hb
    rcases horder with ho | ho <;>
      simp [esp_lcd_new_panel_st7701, ha1, ha2, ha3, ha4, ha5, ha6, hcalloc,
        hgpio, rgb_ele_order_madctl, ho, hc.symm, hdpi,
        LCD_RGB_ELEMENT_ORDER_RGB, LCD_RGB_ELEMENT_ORDER_BGR]

/-- Witness for `create_failure_rollback` on the three failure paths,
each with a configured reset pin: the trace resets the pin's GPIO
configuration and frees the state, and the failure code is returned. -/
theorem create_failure_rollback_witness :
    esp_lcd_new_panel_st7701 create_args_all_valid create_cfg_bad_order
        create_env_all_ok =
      (ESP_ERR_NOT_SUPPORTED, none,
       [Event.gpioConfigOutput 4, Event.gpioResetPin 4, Event.freeState]) ∧
    esp_lcd_new_panel_st7701 create_args_all_valid create_cfg_bpp7
        create_env_all_ok =
      (ESP_ERR_NOT_SUPPORTED, none,
       [Event.gpioConfigOutput 4, Event.gpioResetPin 4, Event.freeState]) ∧
    esp_lcd_new_panel_st7701 create_args_all_valid create_cfg_rgb_pin
        create_env_dpi_fail =
      (ESP_ERR_NO_MEM, none,
       [Event.gpioConfigOutput 4, Event.gpioResetPin 4, Event.freeState]) := by
  refine ⟨?_, ?_, ?_⟩
  · have h := (create_failure_rollback create_args_all_valid
      create_cfg_bad_order create_env_all_ok rfl rfl rfl rfl rfl rfl rfl
      rfl).1 (by decide) (by decide)
    simpa [create_gpio_events, create_rollback_events,
      create_cfg_bad_order] using h
  · have h := (create_failure_rollback create_args_all_valid create_cfg_bpp7
      create_env_all_ok rfl rfl rfl rfl rfl rfl rfl rfl).2.1 (Or.inl rfl)
      (by decide)
    simpa [create_gpio_events, create_rollback_events,
      create_cfg_bpp7] using h
  · have h := (create_failure_rollback create_args_all_valid
      create_cfg_rgb_pin create_env_dpi_fail rfl rfl rfl rfl rfl rfl rfl
      rfl).2.2 (Or.inl rfl) (by decide) (by decide)
    simpa [create_gpio_events, create_rollback_events, create_cfg_rgb_pin,
      create_env_dpi_fail] using h

end ST7701
